import Mathlib

/-!
Verification of the property-price prediction engine
(`predictor/ml_utils.py`, class `PropertyPricePredictor`) against its
specification.  The Python code is shallowly embedded: dict lookups become
structure fields, `dict.get(key, default)` on an optional key becomes a
match on `Option`, Python exceptions become an explicit `Except` error
channel, Python floats are idealised as exact rationals (for the fully
computable feature pipeline) and reals (for the model outputs and the
square-root based statistics).
-/

set_option maxHeartbeats 1000000

namespace HousePrediction

/-- Python-level exceptions the engine can raise during a prediction,
together with the dedicated error classes named by the specification's
error taxonomy.  Modelled from the spec: `unknownCategoryError` and
`domainError` are the dedicated classes the spec requires
(`UnknownCategoryError`, `DomainError`); the repository defines no such
classes anywhere, its code raises only the generic `ValueError`,
`ZeroDivisionError` and `TypeError`.  Including them as constructors lets
theorems state that the raised error is, or is not, one of the dedicated
kinds. -/
inductive PyError where
  | valueError (msg : String)
  | zeroDivisionError
  | typeError
  | unknownCategoryError
  | domainError
deriving DecidableEq, Repr

/-- The caller-supplied property dict (`property_data` in
`ml_utils.py`).  A Python dict key can be absent, present with value
`None`, or present with a number, so the two optional size fields are
`Option (Option ℚ)`: `none` = key absent, `some none` = key present with
`None`, `some (some v)` = key present with value `v`.  The HTTP endpoint
(`views.py`, `PredictionViewSet.predict`) always passes the keys, using
`None` when the client omitted a size. -/
structure PropertyData where
  property_type : String
  location : String
  bedrooms : Int
  bathrooms : Int
  house_size : Option (Option ℚ)
  land_size : Option (Option ℚ)
deriving DecidableEq, Repr

/-- The `sklearn.LabelEncoder` as used by the code: a list of trained classes;
`transform` is the index in that list, failing on an unseen value. -/
structure Encoder where
  classes : List String
deriving DecidableEq, Repr

/-- Index of `s` in the class list (`LabelEncoder.transform` for a single
value): `none` models the `ValueError` sklearn raises on an unseen
label. -/
def indexIn (s : String) : List String → Option Nat
  | [] => none
  | c :: cs => if c = s then some 0 else (indexIn s cs).map (· + 1)

/-- The `data` dict built at the top of `prepare_input` (lines 73-80):
every key is present; the two size slots hold `Option ℚ` because
`property_data.get('house_size', median)` returns Python `None` when the
key was present with value `None`. -/
structure DataDict where
  propertyType : String
  location : String
  bedroom : Int
  bathroom : Int
  houseSize : Option ℚ
  landSize : Option ℚ
deriving DecidableEq, Repr

/-- The engineered feature dict produced by `engineer_features` on the
success path: `bath_bed_ratio`, `total_area` and the two premiums have
been added.  The field `bathPerBed` embeds the source key
`bath_bed_ratio`. -/
structure EngData where
  propertyType : String
  location : String
  bedroom : Int
  bathroom : Int
  houseSize : ℚ
  landSize : ℚ
  bathPerBed : ℚ
  totalArea : ℚ
  locationPremium : ℚ
  propertyPremium : ℚ
deriving DecidableEq, Repr

/-- The final encoded feature row (`df[self.feature_names]`): the two
categorical columns replaced by their integer codes. -/
structure Row where
  propertyTypeCode : Nat
  locationCode : Nat
  bedroom : Int
  bathroom : Int
  houseSize : ℚ
  landSize : ℚ
  bathPerBed : ℚ
  totalArea : ℚ
  locationPremium : ℚ
  propertyPremium : ℚ
deriving DecidableEq, Repr

/-- The ordered numeric feature vector handed to the models, in the
ModelBank's declared `feature_names` order (the FeatureVector field list
of the spec). -/
def Row.toVec (r : Row) : List ℚ :=
  [(r.propertyTypeCode : ℚ), (r.locationCode : ℚ), (r.bedroom : ℚ),
   (r.bathroom : ℚ), r.houseSize, r.landSize, r.bathPerBed, r.totalArea,
   r.locationPremium, r.propertyPremium]

/-- The artifacts loaded once at startup (`load_models`): the three
regressors and the scaler from `property_models.pkl` (abstract functions
on the feature vector, valued in ideal reals), the per-tree predictors of
the tree ensemble (`rf.estimators_`), its feature importances, the two
label encoders, the feature-name ordering, and the summary statistics
(premium maps with their dict-lookup default 0 folded into total
functions, and the two stored medians). -/
structure ModelBank where
  rf : List ℚ → ℝ
  gb : List ℚ → ℝ
  ridge : List ℚ → ℝ
  scaler : List ℚ → List ℚ
  rfTrees : List (List ℚ → ℝ)
  rfImportances : List ℚ
  leProperty : Encoder
  leLocation : Encoder
  featureNames : List String
  locationPremiumStats : String → ℚ
  propertyPremiumStats : String → ℚ
  medianHouse : ℚ
  medianLand : ℚ

/-- Embedding of `property_data.get(key, median)` for one optional size key: the stored
median is substituted only when the key is absent; a key present with
Python `None` yields `None`. -/
def getSize (field : Option (Option ℚ)) (median : ℚ) : Option ℚ :=
  match field with
  | none => some median
  | some v => v

/-- Lines 73-80 of `prepare_input`: build the `data` dict, substituting
the stored medians for absent optional sizes. -/
def initialData (bank : ModelBank) (pd : PropertyData) : DataDict :=
  { propertyType := pd.property_type
    location := pd.location
    bedroom := pd.bedrooms
    bathroom := pd.bathrooms
    houseSize := getSize pd.house_size bank.medianHouse
    landSize := getSize pd.land_size bank.medianLand }

/-- Embedding of `engineer_features` (lines 39-54).  Order of evaluation follows the
source: `bath_bed_ratio = bathroom / Bedroom` first (Python raises
`ZeroDivisionError` on a zero bedroom count), then
`total_area = data.get('House size', 0) + data.get('Land size', 0)` —
both keys are always present in `data`, so the `0` default is dead and
the stored values (possibly Python `None`, in which case the addition
raises `TypeError`) are what is summed — then the two premium lookups,
which default to 0 for a category outside the encoder's class list. -/
def engineer_features (bank : ModelBank) (d : DataDict) : Except PyError EngData :=
  if d.bedroom = 0 then .error .zeroDivisionError
  else
    match d.houseSize, d.landSize with
    | some h, some l =>
        .ok { propertyType := d.propertyType
              location := d.location
              bedroom := d.bedroom
              bathroom := d.bathroom
              houseSize := h
              landSize := l
              bathPerBed := (d.bathroom : ℚ) / (d.bedroom : ℚ)
              totalArea := h + l
              locationPremium :=
                if d.location ∈ bank.leLocation.classes then
                  bank.locationPremiumStats d.location else 0
              propertyPremium :=
                if d.propertyType ∈ bank.leProperty.classes then
                  bank.propertyPremiumStats d.propertyType else 0 }
    | _, _ => .error .typeError

/-- Embedding of `prepare_input` (lines 56-99): build the data dict, engineer
features, then encode the two categorical columns; an unseen property
type or location makes `LabelEncoder.transform` fail and the code
re-raises `ValueError("Invalid property type or location: ...")`.  The
final `df[self.feature_names]` column selection is realised by `Row` in
the bank's declared order. -/
def encodeRow (bank : ModelBank) (e : EngData) : Except PyError Row :=
  match indexIn e.propertyType bank.leProperty.classes,
        indexIn e.location bank.leLocation.classes with
  | some pCode, some lCode =>
      .ok { propertyTypeCode := pCode
            locationCode := lCode
            bedroom := e.bedroom
            bathroom := e.bathroom
            houseSize := e.houseSize
            landSize := e.landSize
            bathPerBed := e.bathPerBed
            totalArea := e.totalArea
            locationPremium := e.locationPremium
            propertyPremium := e.propertyPremium }
  | _, _ => .error (.valueError "Invalid property type or location")

def prepare_input (bank : ModelBank) (pd : PropertyData) : Except PyError Row :=
  match engineer_features bank (initialData bank pd) with
  | .error err => .error err
  | .ok e => encodeRow bank e

theorem prepare_input_eq_error (bank : ModelBank) (pd : PropertyData)
    (err : PyError)
    (he : engineer_features bank (initialData bank pd) = .error err) :
    prepare_input bank pd = .error err := by
  rw [prepare_input, he]

theorem prepare_input_eq_ok (bank : ModelBank) (pd : PropertyData) (e : EngData)
    (he : engineer_features bank (initialData bank pd) = .ok e) :
    prepare_input bank pd = encodeRow bank e := by
  rw [prepare_input, he]

/-- Embedding of `ensemble_predict` (lines 101-114): fixed-weight blend of the three
models; the tree ensemble and the gradient-boosted model consume the raw
vector, the ridge model the scaler's transform of it. -/
noncomputable def ensemble_predict (bank : ModelBank) (X : List ℚ) : ℝ :=
  0.5 * bank.rf X + 0.3 * bank.gb X + 0.2 * bank.ridge (bank.scaler X)

/-- Embedding of `np.mean` on a list of reals (real division; the empty list is a
degenerate case never reached by the code on a loaded bank). -/
noncomputable def npMean (l : List ℝ) : ℝ := l.sum / l.length

/-- Embedding of `np.std` with the numpy default `ddof=0`: the population standard
deviation. -/
noncomputable def npStd (l : List ℝ) : ℝ :=
  Real.sqrt ((l.map (fun x => (x - npMean l) ^ 2)).sum / l.length)

/-- The result dict returned by `predict_with_confidence` (the spec's
PredictionResult), without the pass-through `model_metrics` snapshot. -/
structure PredictionResult where
  predicted_price : ℝ
  confidence_score : ℝ
  price_range_min : ℝ
  price_range_max : ℝ
  feature_importance : List (String × ℚ)

/-- The body of `predict_with_confidence` after `prepare_input` has
succeeded (lines 132-175): ensemble price, agreement confidence from the
three candidates `[rf_pred, gb_pred, predicted_price]`, the 1.96-sigma
interval from the per-tree predictions, and the name-to-importance
zip. -/
noncomputable def predictFromRow (bank : ModelBank) (row : Row) : PredictionResult :=
  let X := row.toVec
  let predicted_price := ensemble_predict bank X
  let rf_pred := bank.rf X
  let gb_pred := bank.gb X
  let predictions : List ℝ := [rf_pred, gb_pred, predicted_price]
  let std_dev := npStd predictions
  let mean_pred := npMean predictions
  let cv : ℝ := if mean_pred > 0 then std_dev / mean_pred else 1
  let confidence_score := max 0 (min 1 (1 - cv))
  let tree_predictions := bank.rfTrees.map (fun t => t X)
  let std_error := npStd tree_predictions
  let margin := 1.96 * std_error
  { predicted_price := predicted_price
    confidence_score := confidence_score
    price_range_min := max 0 (predicted_price - margin)
    price_range_max := predicted_price + margin
    feature_importance := bank.featureNames.zip bank.rfImportances }

/-- Embedding of `predict_with_confidence` (lines 116-179): `prepare_input` may raise
(the `except` clause only logs and re-raises), everything after it is
total. -/
noncomputable def predict_with_confidence (bank : ModelBank) (pd : PropertyData) :
    Except PyError PredictionResult :=
  (prepare_input bank pd).map (predictFromRow bank)

/-! ### Explanation generator -/

/-- Stable insert of Python's `sorted(..., key=k, reverse=True)`:
`x` is placed before the first strictly smaller key; elements that
compare equal to `x` and were already in the (later-elements) sorted list
stay behind it, elements equal to `x` from earlier in the original list
will be inserted in front of it, which is exactly timsort's stable
descending order. -/
def pyInsertDesc (k : α → ℚ) (x : α) : List α → List α
  | [] => [x]
  | y :: l => if k y ≤ k x then x :: y :: l else y :: pyInsertDesc k x l

/-- Python's `sorted(l, key=k, reverse=True)`: a stable descending
sort. -/
def pySortDesc (k : α → ℚ) : List α → List α
  | [] => []
  | x :: l => pyInsertDesc k x (pySortDesc k l)

/-- Python's `f"{v:.0f}"` on an idealised float: rounding to an integer
(the half-to-even detail of float formatting is abstracted to
mathematical rounding). -/
def formatF0 (v : ℚ) : String := toString (round v)

/-- Sentence 1 of `explain_prediction`: the location line. -/
def locationSentence (pd : PropertyData) : String :=
  "Location (" ++ pd.location ++ "): Premium area with high property values"

/-- Sentence 2: the property-type line. -/
def typeSentence (pd : PropertyData) : String :=
  "Property Type (" ++ pd.property_type ++ "): Influences base price significantly"

/-- The optional size line: emitted only when
`property_data.get('house_size')` is truthy, i.e. the key is present,
not `None`, and nonzero (Python truthiness of a float). -/
def sizeSentences (pd : PropertyData) : List String :=
  match pd.house_size with
  | some (some v) =>
      if v = 0 then []
      else ["House Size: " ++ formatF0 v ++ " mÂ² contributes to overall value"]
  | _ => []

/-- The room-count line. -/
def roomsSentence (pd : PropertyData) : String :=
  "Rooms: " ++ toString pd.bedrooms ++ " bedrooms and " ++
    toString pd.bathrooms ++ " bathrooms affect pricing"

/-- The top-3 features by importance: Python's stable descending sort of
the importance dict's items, truncated to three. -/
def topFeatures (fi : List (String × ℚ)) : List (String × ℚ) :=
  (pySortDesc (fun p => p.2) fi).take 3

/-- The closing key-factors line. -/
def keyFactorsSentence (fi : List (String × ℚ)) : String :=
  "Key factors: " ++ String.intercalate ", " ((topFeatures fi).map (fun p => p.1))

/-- Embedding of `explain_prediction` (lines 189-229). -/
def explain_prediction (pd : PropertyData) (res : PredictionResult) : List String :=
  [locationSentence pd, typeSentence pd] ++ sizeSentences pd ++
    [roomsSentence pd, keyFactorsSentence res.feature_importance]

/-! ### Concrete stub banks and requests used by witnesses and
counterexamples -/

/-- The stub ModelBank of the spec's concrete test scenario: the three
models return the constants rf=2.0e7, gb=2.1e7, ridge=1.9e7, the scaler
is the identity, and the vocabularies contain the scenario's two
categories. -/
noncomputable def specBank : ModelBank :=
  { rf := fun _ => 20000000
    gb := fun _ => 21000000
    ridge := fun _ => 19000000
    scaler := id
    rfTrees := [fun _ => 20000000]
    rfImportances := []
    leProperty := ⟨["Apartment"]⟩
    leLocation := ⟨["Kilimani"]⟩
    featureNames := []
    locationPremiumStats := fun _ => 0
    propertyPremiumStats := fun _ => 0
    medianHouse := 100
    medianLand := 50 }

/-- The spec scenario's request: Apartment in Kilimani, 3 bedrooms,
2 bathrooms, house_size 150, land_size 0, both sizes supplied. -/
def specReq : PropertyData :=
  { property_type := "Apartment"
    location := "Kilimani"
    bedrooms := 3
    bathrooms := 2
    house_size := some (some 150)
    land_size := some (some 0) }

/-- The encoded feature row the pipeline produces for `specReq`. -/
def specRow : Row :=
  { propertyTypeCode := 0
    locationCode := 0
    bedroom := 3
    bathroom := 2
    houseSize := 150
    landSize := 0
    bathPerBed := 2 / 3
    totalArea := 150
    locationPremium := 0
    propertyPremium := 0 }

theorem specRow_eval : prepare_input specBank specReq = .ok specRow := by
  simp [prepare_input, encodeRow, engineer_features, initialData, getSize, indexIn,
    specBank, specReq, specRow]

/-! ### C1: ensemble formula and the spec's concrete scenario -/

/-- C1 counterexample: on the spec's own stub scenario (models returning
rf=2.0e7, gb=2.1e7, ridge=1.9e7, identity scaler, the Apartment/Kilimani
request), the code's predicted price is 0.5*2.0e7 + 0.3*2.1e7 + 0.2*1.9e7
= 2.01e7, which is not the 1.99e7 the claim asserts. -/
theorem C1_counterexample :
    ∃ res, predict_with_confidence specBank specReq = .ok res ∧
      res.predicted_price = 20100000 ∧ ¬ res.predicted_price = 19900000 := by
  refine ⟨predictFromRow specBank specRow, ?_, ?_, ?_⟩
  · simp [predict_with_confidence, specRow_eval, Except.map]
  · simp [predictFromRow, ensemble_predict, specBank]
    norm_num
  · simp [predictFromRow, ensemble_predict, specBank]
    norm_num

/-- C1 (amended): for every feature vector the ensemble prediction is
0.5*rf_pred + 0.3*gb_pred + 0.2*ridge_pred with rf and gb consuming the
raw unscaled vector and ridge consuming the scaler's transform; on the
spec's stub scenario the predicted price is exactly 2.01e7 (the claim's
1.99e7 is an arithmetic slip: it weights gb and ridge the wrong way
round). -/
theorem C1_ensemble_weights :
    (∀ (bank : ModelBank) (X : List ℚ),
      ensemble_predict bank X =
        0.5 * bank.rf X + 0.3 * bank.gb X + 0.2 * bank.ridge (bank.scaler X)) ∧
    ∃ res, predict_with_confidence specBank specReq = .ok res ∧
      res.predicted_price = 20100000 := by
  refine ⟨fun bank X => rfl, predictFromRow specBank specRow, ?_, ?_⟩
  · simp [predict_with_confidence, specRow_eval, Except.map]
  · simp [predictFromRow, ensemble_predict, specBank]
    norm_num

/-! ### Field equations for `predictFromRow` -/

theorem predictFromRow_price (bank : ModelBank) (row : Row) :
    (predictFromRow bank row).predicted_price =
      ensemble_predict bank row.toVec := rfl

theorem predictFromRow_conf (bank : ModelBank) (row : Row) :
    (predictFromRow bank row).confidence_score =
      max 0 (min 1 (1 -
        if npMean [bank.rf row.toVec, bank.gb row.toVec,
            ensemble_predict bank row.toVec] > 0 then
          npStd [bank.rf row.toVec, bank.gb row.toVec,
            ensemble_predict bank row.toVec] /
          npMean [bank.rf row.toVec, bank.gb row.toVec,
            ensemble_predict bank row.toVec]
        else 1)) := rfl

theorem predictFromRow_min (bank : ModelBank) (row : Row) :
    (predictFromRow bank row).price_range_min =
      max 0 (ensemble_predict bank row.toVec -
        1.96 * npStd (bank.rfTrees.map (fun t => t row.toVec))) := rfl

theorem predictFromRow_max (bank : ModelBank) (row : Row) :
    (predictFromRow bank row).price_range_max =
      ensemble_predict bank row.toVec +
        1.96 * npStd (bank.rfTrees.map (fun t => t row.toVec)) := rfl

theorem predictFromRow_fi (bank : ModelBank) (row : Row) :
    (predictFromRow bank row).feature_importance =
      bank.featureNames.zip bank.rfImportances := rfl

/-! ### C2: agreement confidence -/

/-- The agreement confidence as the spec words it (section 4.4): the
population standard deviation and mean of the three candidate
predictions, cv = std/mean with cv = 1 whenever the mean is not
positive, then clamp(1 - cv, 0, 1). -/
noncomputable def confidenceSpec (a b c : ℝ) : ℝ :=
  let m := (a + b + c) / 3
  let sd := Real.sqrt (((a - m) ^ 2 + (b - m) ^ 2 + (c - m) ^ 2) / 3)
  let cv := if m > 0 then sd / m else 1
  max 0 (min 1 (1 - cv))

theorem npMean_three (a b c : ℝ) : npMean [a, b, c] = (a + b + c) / 3 := by
  simp [npMean]
  ring

theorem npStd_three (a b c : ℝ) :
    npStd [a, b, c] =
      Real.sqrt (((a - (a + b + c) / 3) ^ 2 + (b - (a + b + c) / 3) ^ 2 +
        (c - (a + b + c) / 3) ^ 2) / 3) := by
  rw [npStd, npMean_three]
  norm_num
  ring_nf

/-- C2: the confidence score equals the spec's clamp(1 - cv, 0, 1) with
cv = (population std)/(mean) of {rf prediction, gb prediction, ensemble
price} when the mean is positive and cv = 1 otherwise, and it always
lies in [0, 1]. -/
theorem C2_confidence (bank : ModelBank) (row : Row) :
    (predictFromRow bank row).confidence_score =
      confidenceSpec (bank.rf row.toVec) (bank.gb row.toVec)
        (ensemble_predict bank row.toVec) ∧
    0 ≤ (predictFromRow bank row).confidence_score ∧
    (predictFromRow bank row).confidence_score ≤ 1 := by
  refine ⟨?_, ?_, ?_⟩
  · rw [predictFromRow_conf, confidenceSpec, npMean_three, npStd_three]
  · rw [predictFromRow_conf]
    exact le_max_left 0 _
  · rw [predictFromRow_conf]
    exact max_le (by norm_num) (min_le_left 1 _)

/-! ### C3: the 1.96-sigma prediction interval -/

theorem npStd_nonneg (l : List ℝ) : 0 ≤ npStd l := Real.sqrt_nonneg _

theorem npStd_singleton (c : ℝ) : npStd [c] = 0 := by
  simp [npStd, npMean]

/-- Stub bank whose models and trees all return -1: the ensemble price
is negative, exposing the zero floor of the interval's lower bound. -/
noncomputable def negBank : ModelBank :=
  { specBank with
    rf := fun _ => -1
    gb := fun _ => -1
    ridge := fun _ => -1
    rfTrees := [fun _ => -1] }

theorem negRow_eval : prepare_input negBank specReq = .ok specRow := by
  simp [prepare_input, encodeRow, engineer_features, initialData, getSize, indexIn,
    negBank, specBank, specReq, specRow]

/-- C3 counterexample: with stub models returning -1 everywhere, the
predicted price is -1 while the floored lower bound is 0, so
price_range_min ≤ predicted_price fails; the claimed interval ordering
does not hold for every valid request. -/
theorem C3_counterexample :
    ∃ res, predict_with_confidence negBank specReq = .ok res ∧
      res.predicted_price < res.price_range_min := by
  refine ⟨predictFromRow negBank specRow, ?_, ?_⟩
  · simp [predict_with_confidence, negRow_eval, Except.map]
  · rw [predictFromRow_price, predictFromRow_min]
    simp only [negBank, ensemble_predict, List.map_cons, List.map_nil,
      npStd_singleton]
    norm_num

/-- C3 (amended): the interval is margin = 1.96 * (population std of the
per-tree predictions), price_range_min = max(0, price - margin),
price_range_max = price + margin, exactly as claimed; the ordering
price_range_min ≤ predicted_price ≤ price_range_max holds whenever the
predicted price is nonnegative (it fails for a negative predicted price,
where the zero floor pushes the lower bound above the price). -/
theorem C3_interval (bank : ModelBank) (row : Row) :
    (predictFromRow bank row).price_range_min =
      max 0 ((predictFromRow bank row).predicted_price -
        1.96 * npStd (bank.rfTrees.map (fun t => t row.toVec))) ∧
    (predictFromRow bank row).price_range_max =
      (predictFromRow bank row).predicted_price +
        1.96 * npStd (bank.rfTrees.map (fun t => t row.toVec)) ∧
    (0 ≤ (predictFromRow bank row).predicted_price →
      (predictFromRow bank row).price_range_min ≤
          (predictFromRow bank row).predicted_price ∧
        (predictFromRow bank row).predicted_price ≤
          (predictFromRow bank row).price_range_max) := by
  have hmargin : 0 ≤ 1.96 * npStd (bank.rfTrees.map (fun t => t row.toVec)) :=
    mul_nonneg (by norm_num) (npStd_nonneg _)
  refine ⟨rfl, rfl, fun hp => ⟨?_, ?_⟩⟩
  · rw [predictFromRow_min]
    rw [predictFromRow_price] at hp ⊢
    exact max_le hp (sub_le_self _ hmargin)
  · rw [predictFromRow_max, predictFromRow_price]
    exact le_add_of_nonneg_right hmargin

/-- C3 witness: on the spec scenario's stub bank the predicted price is
2.01e7 ≥ 0 and the interval brackets it. -/
theorem C3_interval_witness :
    0 ≤ (predictFromRow specBank specRow).predicted_price ∧
    (predictFromRow specBank specRow).price_range_min ≤
      (predictFromRow specBank specRow).predicted_price ∧
    (predictFromRow specBank specRow).predicted_price ≤
      (predictFromRow specBank specRow).price_range_max := by
  have h0 : 0 ≤ (predictFromRow specBank specRow).predicted_price := by
    rw [predictFromRow_price]
    simp only [ensemble_predict, specBank]
    norm_num
  exact ⟨h0, (C3_interval specBank specRow).2.2 h0⟩

/-! ### C4: unknown category -/

theorem indexIn_eq_none_iff (s : String) (l : List String) :
    indexIn s l = none ↔ s ∉ l := by
  induction l with
  | nil => simp [indexIn]
  | cons c cs ih =>
    by_cases hc : c = s
    · simp [indexIn, hc]
    · simp [indexIn, hc, ih, Ne.symm hc]

theorem getSize_eq_some (field : Option (Option ℚ)) (m : ℚ)
    (h : field ≠ some none) : ∃ v, getSize field m = some v := by
  match field with
  | none => exact ⟨m, rfl⟩
  | some (some v) => exact ⟨v, rfl⟩
  | some none => exact absurd rfl h

/-- Model-independent parts of `prepare_input`: the feature pipeline
never consults the regressors, the scaler, the trees, the feature-name
list or the importances. -/
theorem prepare_input_models_irrelevant (bank : ModelBank)
    (f g h : List ℚ → ℝ) (s : List ℚ → List ℚ) (t : List (List ℚ → ℝ))
    (names : List String) (imps : List ℚ) (pd : PropertyData) :
    prepare_input
      { bank with
        rf := f
        gb := g
        ridge := h
        scaler := s
        rfTrees := t
        featureNames := names
        rfImportances := imps } pd =
      prepare_input bank pd := rfl

/-- On a structurally valid request whose property type or location is
outside the trained vocabulary, `prepare_input` fails with the re-raised
generic `ValueError`. -/
theorem prepare_input_unknown_category (bank : ModelBank) (pd : PropertyData)
    (hbed : pd.bedrooms ≠ 0)
    (hhs : pd.house_size ≠ some none) (hls : pd.land_size ≠ some none)
    (hcat : pd.property_type ∉ bank.leProperty.classes ∨
      pd.location ∉ bank.leLocation.classes) :
    prepare_input bank pd =
      .error (.valueError "Invalid property type or location") := by
  obtain ⟨hv, hh⟩ := getSize_eq_some pd.house_size bank.medianHouse hhs
  obtain ⟨lv, hl⟩ := getSize_eq_some pd.land_size bank.medianLand hls
  rcases hcat with hcat | hcat
  · have hp := (indexIn_eq_none_iff pd.property_type bank.leProperty.classes).2 hcat
    simp [prepare_input, encodeRow, engineer_features, initialData, hbed, hh,
      hl, hp]
  · have hp := (indexIn_eq_none_iff pd.location bank.leLocation.classes).2 hcat
    rcases hq : indexIn pd.property_type bank.leProperty.classes with _ | i <;>
      simp [prepare_input, encodeRow, engineer_features, initialData, hbed,
        hh, hl, hp, hq]

/-- A request whose location is outside `specBank`'s vocabulary. -/
def unknownReq : PropertyData :=
  { property_type := "Apartment"
    location := "Nowhere"
    bedrooms := 2
    bathrooms := 1
    house_size := some (some 100)
    land_size := some (some 40) }

/-- C4 counterexample: for a request with an unseen location the engine
raises the generic `ValueError("Invalid property type or location")`,
not a dedicated `UnknownCategoryError` — no such error class exists in
the repository. -/
theorem C4_counterexample :
    predict_with_confidence specBank unknownReq =
      .error (.valueError "Invalid property type or location") ∧
    PyError.valueError "Invalid property type or location" ≠
      PyError.unknownCategoryError := by
  constructor
  · have h : prepare_input specBank unknownReq =
        .error (.valueError "Invalid property type or location") := by
      simp [prepare_input, encodeRow, engineer_features, initialData, getSize, indexIn,
        specBank, unknownReq]
    simp [predict_with_confidence, h, Except.map]
  · decide

/-- C4 (amended): for every structurally valid request whose property
type or location is outside the trained vocabulary, the prediction fails
with the generic `ValueError("Invalid property type or location")` (the
code defines no dedicated `UnknownCategoryError`), and the outcome is
the same for any choice of regressors, scaler and trees — the Ensemble
Predictor is never consulted. -/
theorem C4_unknown_category (bank : ModelBank) (pd : PropertyData)
    (hbed : pd.bedrooms ≠ 0)
    (hhs : pd.house_size ≠ some none) (hls : pd.land_size ≠ some none)
    (hcat : pd.property_type ∉ bank.leProperty.classes ∨
      pd.location ∉ bank.leLocation.classes) :
    predict_with_confidence bank pd =
      .error (.valueError "Invalid property type or location") ∧
    ∀ (f g h : List ℚ → ℝ) (s : List ℚ → List ℚ) (t : List (List ℚ → ℝ))
      (names : List String) (imps : List ℚ),
      predict_with_confidence
        { bank with
          rf := f
          gb := g
          ridge := h
          scaler := s
          rfTrees := t
          featureNames := names
          rfImportances := imps } pd =
        .error (.valueError "Invalid property type or location") := by
  have base := prepare_input_unknown_category bank pd hbed hhs hls hcat
  constructor
  · simp [predict_with_confidence, base, Except.map]
  · intro f g h s t names imps
    rw [predict_with_confidence, prepare_input_models_irrelevant, base]
    rfl

/-- C4 witness: the concrete unseen-location request against the spec
scenario's bank. -/
theorem C4_unknown_category_witness :
    unknownReq.bedrooms ≠ 0 ∧
    unknownReq.location ∉ specBank.leLocation.classes ∧
    predict_with_confidence specBank unknownReq =
      .error (.valueError "Invalid property type or location") := by
  refine ⟨by decide, by decide, ?_⟩
  exact (C4_unknown_category specBank unknownReq (by decide) (by decide)
    (by decide) (Or.inr (by decide))).1

/-! ### C5: zero bedrooms -/

/-- The spec scenario's request with a zero bedroom count. -/
def zeroBedReq : PropertyData :=
  { specReq with bedrooms := 0 }

/-- C5 counterexample: a zero bedroom count makes the feature engineer
raise Python's generic `ZeroDivisionError`, which is not the dedicated
`DomainError` the claim requires — no such error class exists in the
repository. -/
theorem C5_counterexample :
    prepare_input specBank zeroBedReq = .error .zeroDivisionError ∧
    PyError.zeroDivisionError ≠ PyError.domainError := by
  constructor
  · simp [prepare_input, engineer_features, initialData, getSize,
      specBank, zeroBedReq, specReq]
  · decide

/-- C5 (amended): if a request with bedrooms = 0 reaches the feature
engineer, computing bath_bed_ratio raises the generic
`ZeroDivisionError` (not a dedicated `DomainError`), and no feature
vector — in particular no NaN or infinity — is ever produced for that
request. -/
theorem C5_zero_bedrooms (bank : ModelBank) (pd : PropertyData)
    (hbed : pd.bedrooms = 0) :
    predict_with_confidence bank pd = .error .zeroDivisionError ∧
    ∀ row : Row, prepare_input bank pd ≠ .ok row := by
  have base : prepare_input bank pd = .error .zeroDivisionError := by
    simp [prepare_input, engineer_features, initialData, hbed]
  constructor
  · simp [predict_with_confidence, base, Except.map]
  · intro row
    simp [base]

/-- C5 witness: the concrete zero-bedroom request. -/
theorem C5_zero_bedrooms_witness :
    zeroBedReq.bedrooms = 0 ∧
    predict_with_confidence specBank zeroBedReq = .error .zeroDivisionError :=
  ⟨rfl, (C5_zero_bedrooms specBank zeroBedReq rfl).1⟩

/-! ### C6, C7, C10: median substitution, total_area, explicit nulls -/

theorem engineer_ok_fields (bank : ModelBank) (d : DataDict) (e : EngData)
    (h : engineer_features bank d = .ok e) :
    d.houseSize = some e.houseSize ∧ d.landSize = some e.landSize ∧
    e.totalArea = e.houseSize + e.landSize := by
  rw [engineer_features] at h
  by_cases hb : d.bedroom = 0
  · simp [hb] at h
  · rw [if_neg hb] at h
    rcases dh : d.houseSize with _ | hv <;> rw [dh] at h
    · simp at h
    · rcases dl : d.landSize with _ | lv <;> rw [dl] at h
      · simp at h
      · injection h with h
        subst h
        exact ⟨rfl, rfl, rfl⟩

theorem prepare_ok_fields (bank : ModelBank) (pd : PropertyData) (row : Row)
    (h : prepare_input bank pd = .ok row) :
    ∃ e, engineer_features bank (initialData bank pd) = .ok e ∧
      row.houseSize = e.houseSize ∧ row.landSize = e.landSize ∧
      row.totalArea = e.totalArea := by
  rcases he : engineer_features bank (initialData bank pd) with err | e
  · rw [prepare_input_eq_error bank pd err he] at h
    simp at h
  · rw [prepare_input_eq_ok bank pd e he] at h
    refine ⟨e, rfl, ?_⟩
    rw [encodeRow] at h
    rcases hp : indexIn e.propertyType bank.leProperty.classes with _ | i <;>
      rw [hp] at h
    · simp at h
    · rcases hl : indexIn e.location bank.leLocation.classes with _ | j <;>
        rw [hl] at h
      · simp at h
      · injection h with h
        subst h
        exact ⟨rfl, rfl, rfl⟩

/-- C6: when exactly one of the optional sizes is missing (its key
absent), only that field is replaced by the bank's stored median in the
data dict built before feature engineering; the supplied field keeps its
supplied value. -/
theorem C6_median_substitution (bank : ModelBank) (pd : PropertyData)
    (hv lv : ℚ) :
    (pd.house_size = none ∧ pd.land_size = some (some lv) →
      (initialData bank pd).houseSize = some bank.medianHouse ∧
      (initialData bank pd).landSize = some lv) ∧
    (pd.house_size = some (some hv) ∧ pd.land_size = none →
      (initialData bank pd).houseSize = some hv ∧
      (initialData bank pd).landSize = some bank.medianLand) := by
  constructor
  · rintro ⟨h1, h2⟩
    simp [initialData, getSize, h1, h2]
  · rintro ⟨h1, h2⟩
    simp [initialData, getSize, h1, h2]

/-- A valid request with house_size absent and land_size supplied. -/
def missingHouseReq : PropertyData :=
  { property_type := "Apartment"
    location := "Kilimani"
    bedrooms := 2
    bathrooms := 1
    house_size := none
    land_size := some (some 50) }

/-- The row the pipeline produces for `missingHouseReq` against
`specBank` (whose stored medians are house 100, land 50). -/
def missingHouseRow : Row :=
  { propertyTypeCode := 0
    locationCode := 0
    bedroom := 2
    bathroom := 1
    houseSize := 100
    landSize := 50
    bathPerBed := 1 / 2
    totalArea := 150
    locationPremium := 0
    propertyPremium := 0 }

theorem missingHouseRow_eval :
    prepare_input specBank missingHouseReq = .ok missingHouseRow := by
  norm_num [prepare_input, encodeRow, engineer_features, initialData, getSize,
    indexIn, specBank, missingHouseReq, missingHouseRow]

/-- C6 witness: against `specBank` (median house size 100), the request
with house_size absent and land_size = 50 gets house 100 and keeps
land 50. -/
theorem C6_median_substitution_witness :
    missingHouseReq.house_size = none ∧
    missingHouseReq.land_size = some (some 50) ∧
    (initialData specBank missingHouseReq).houseSize =
      some specBank.medianHouse ∧
    (initialData specBank missingHouseReq).landSize = some 50 := by
  have h := (C6_median_substitution specBank missingHouseReq 0 50).1 ⟨rfl, rfl⟩
  exact ⟨rfl, rfl, h.1, h.2⟩

/-- C7 counterexample: with house_size missing and land_size = 50
against a bank whose stored house median is 100, the engineered
total_area is 100 + 50 = 150, not the 0 + 50 = 50 the claim's
"missing treated as 0" reading requires. -/
theorem C7_counterexample :
    ∃ row, prepare_input specBank missingHouseReq = .ok row ∧
      row.totalArea = 150 ∧ ¬ row.totalArea = 50 := by
  exact ⟨missingHouseRow, missingHouseRow_eval, by norm_num [missingHouseRow],
    by norm_num [missingHouseRow]⟩

/-- C7 (amended): total_area is the sum of the house and land sizes
*after* median substitution — the `data.get(key, 0)` defaults in the
source are dead because both keys are always present — so a missing
size contributes the bank's stored median to the sum, not 0, and the
engineered row always satisfies total_area = house_size + land_size of
its (substituted) size fields. -/
theorem C7_total_area (bank : ModelBank) (pd : PropertyData) (row : Row)
    (h : prepare_input bank pd = .ok row) :
    row.totalArea = row.houseSize + row.landSize ∧
    (pd.house_size = none → row.houseSize = bank.medianHouse) ∧
    (pd.land_size = none → row.landSize = bank.medianLand) := by
  obtain ⟨e, he, hh, hl, ht⟩ := prepare_ok_fields bank pd row h
  obtain ⟨dh, dl, dt⟩ := engineer_ok_fields bank (initialData bank pd) e he
  refine ⟨by rw [ht, hh, hl, dt], ?_, ?_⟩
  · intro hnone
    have : (initialData bank pd).houseSize = some bank.medianHouse := by
      simp [initialData, getSize, hnone]
    rw [this] at dh
    rw [hh]
    exact (Option.some_inj.1 dh).symm
  · intro hnone
    have : (initialData bank pd).landSize = some bank.medianLand := by
      simp [initialData, getSize, hnone]
    rw [this] at dl
    rw [hl]
    exact (Option.some_inj.1 dl).symm

/-- C7 witness: the concrete missing-house request. -/
theorem C7_total_area_witness :
    prepare_input specBank missingHouseReq = .ok missingHouseRow ∧
    missingHouseRow.totalArea =
      missingHouseRow.houseSize + missingHouseRow.landSize ∧
    missingHouseRow.houseSize = specBank.medianHouse := by
  have h := C7_total_area specBank missingHouseReq missingHouseRow
    missingHouseRow_eval
  exact ⟨missingHouseRow_eval, h.1, h.2.1 rfl⟩

/-- The property_data dict the HTTP predict endpoint builds (views.py,
`PredictionViewSet.predict`, lines 112-123): every key is present, and
`serializer.validated_data.get(...)` yields Python `None` for an
optional size the client omitted. -/
def viewsPropertyData (pt loc : String) (bed bath : Int) (hs ls : Option ℚ) :
    PropertyData :=
  { property_type := pt
    location := loc
    bedrooms := bed
    bathrooms := bath
    house_size := some hs
    land_size := some ls }

/-- C10: a size supplied as an explicit null (key present, value None —
the shape the HTTP endpoint passes for an omitted size) is *not*
replaced by the training median (the `dict.get` default applies only to
an absent key), the None flows into the total_area sum, and feature
engineering fails with a `TypeError` instead of producing a prediction
result. -/
theorem C10_null_size (bank : ModelBank) (pd : PropertyData)
    (hbed : pd.bedrooms ≠ 0)
    (hnull : pd.house_size = some none ∨ pd.land_size = some none) :
    prepare_input bank pd = .error .typeError ∧
    predict_with_confidence bank pd = .error .typeError ∧
    (pd.house_size = some none → (initialData bank pd).houseSize = none) ∧
    (pd.land_size = some none → (initialData bank pd).landSize = none) ∧
    ∀ (pt loc : String) (bed bath : Int) (ls : Option ℚ),
      (viewsPropertyData pt loc bed bath none ls).house_size = some none := by
  have base : prepare_input bank pd = .error .typeError := by
    refine prepare_input_eq_error bank pd .typeError ?_
    rcases hnull with hn | hn
    · simp [engineer_features, initialData, getSize, hbed, hn]
    · rcases dh : pd.house_size with _ | ov
      · simp [engineer_features, initialData, getSize, hbed, hn, dh]
      · rcases ov with _ | hv <;>
          simp [engineer_features, initialData, getSize, hbed, hn, dh]
  refine ⟨base, ?_, ?_, ?_, fun pt loc bed bath ls => rfl⟩
  · simp [predict_with_confidence, base, Except.map]
  · intro hn
    simp [initialData, getSize, hn]
  · intro hn
    simp [initialData, getSize, hn]

/-- The spec scenario's request with house_size supplied as explicit
null. -/
def nullHouseReq : PropertyData :=
  { specReq with house_size := some none }

/-- C10 witness: the concrete explicit-null request fails with
`TypeError`. -/
theorem C10_null_size_witness :
    nullHouseReq.bedrooms ≠ 0 ∧ nullHouseReq.house_size = some none ∧
    predict_with_confidence specBank nullHouseReq = .error .typeError := by
  refine ⟨by decide, rfl, ?_⟩
  exact (C10_null_size specBank nullHouseReq (by decide) (Or.inl rfl)).2.1

/-! ### C8: determinism -/

/-- C8: prediction is a pure function of the request and the bank — the
embedding has no hidden randomness, so two calls with an identical
request against an unchanged bank agree on every returned field. -/
theorem C8_deterministic (bank : ModelBank) (pd : PropertyData)
    (r1 r2 : PredictionResult)
    (h1 : predict_with_confidence bank pd = .ok r1)
    (h2 : predict_with_confidence bank pd = .ok r2) :
    predict_with_confidence bank pd = predict_with_confidence bank pd ∧
    r1.predicted_price = r2.predicted_price ∧
    r1.confidence_score = r2.confidence_score ∧
    r1.price_range_min = r2.price_range_min ∧
    r1.price_range_max = r2.price_range_max := by
  have h := h1.symm.trans h2
  injection h with h
  subst h
  exact ⟨rfl, rfl, rfl, rfl, rfl⟩

/-- C8 witness: two evaluations on the spec scenario. -/
theorem C8_deterministic_witness :
    predict_with_confidence specBank specReq =
      .ok (predictFromRow specBank specRow) ∧
    (predictFromRow specBank specRow).predicted_price =
      (predictFromRow specBank specRow).predicted_price := by
  have h : predict_with_confidence specBank specReq =
      .ok (predictFromRow specBank specRow) := by
    simp [predict_with_confidence, specRow_eval, Except.map]
  exact ⟨h, (C8_deterministic specBank specReq _ _ h h).2.1⟩

/-! ### C9: the explanation generator and its stable descending sort -/

theorem pyInsertDesc_perm (k : α → ℚ) (x : α) (l : List α) :
    List.Perm (pyInsertDesc k x l) (x :: l) := by
  induction l with
  | nil => rfl
  | cons y ys ih =>
    rw [pyInsertDesc]
    by_cases h : k y ≤ k x
    · rw [if_pos h]
    · rw [if_neg h]
      exact (ih.cons y).trans (List.Perm.swap x y ys)

theorem pySortDesc_perm (k : α → ℚ) (l : List α) :
    List.Perm (pySortDesc k l) l := by
  induction l with
  | nil => rfl
  | cons x xs ih =>
    exact (pyInsertDesc_perm k x (pySortDesc k xs)).trans (ih.cons x)

theorem pyInsertDesc_pairwise (k : α → ℚ) (x : α) (l : List α)
    (hl : l.Pairwise (fun a b => k b ≤ k a)) :
    (pyInsertDesc k x l).Pairwise (fun a b => k b ≤ k a) := by
  induction l with
  | nil => simp [pyInsertDesc]
  | cons y ys ih =>
    rcases List.pairwise_cons.1 hl with ⟨hy, hys⟩
    rw [pyInsertDesc]
    by_cases h : k y ≤ k x
    · rw [if_pos h]
      refine List.pairwise_cons.2 ⟨?_, hl⟩
      intro z hz
      rcases List.mem_cons.1 hz with rfl | hz
      · exact h
      · exact (hy z hz).trans h
    · rw [if_neg h]
      refine List.pairwise_cons.2 ⟨?_, ih hys⟩
      intro z hz
      rcases List.mem_cons.1 ((pyInsertDesc_perm k x ys).mem_iff.1 hz) with
        rfl | hz
      · exact le_of_not_le h
      · exact hy z hz

theorem pySortDesc_pairwise (k : α → ℚ) (l : List α) :
    (pySortDesc k l).Pairwise (fun a b => k b ≤ k a) := by
  induction l with
  | nil => simp [pySortDesc]
  | cons x xs ih => exact pyInsertDesc_pairwise k x _ ih

theorem pyInsertDesc_map_snd (k : α → ℚ) (x : ℕ × α) (l : List (ℕ × α)) :
    (pyInsertDesc (fun p => k p.2) x l).map Prod.snd =
      pyInsertDesc k x.2 (l.map Prod.snd) := by
  induction l with
  | nil => rfl
  | cons y ys ih =>
    simp only [pyInsertDesc, List.map_cons]
    by_cases h : k y.2 ≤ k x.2 <;> simp [h, ih]

theorem pySortDesc_map_snd (k : α → ℚ) (l : List (ℕ × α)) :
    (pySortDesc (fun p => k p.2) l).map Prod.snd =
      pySortDesc k (l.map Prod.snd) := by
  induction l with
  | nil => rfl
  | cons x xs ih =>
    simp only [pySortDesc, List.map_cons]
    rw [pyInsertDesc_map_snd, ih]

/-- When `a` may legitimately precede `b` in a stable descending sort of an
index-tagged list: strictly larger key, or equal keys with `a`'s
original position earlier. -/
def lexBefore (k : α → ℚ) (a b : ℕ × α) : Prop :=
  k b.2 < k a.2 ∨ (k a.2 = k b.2 ∧ a.1 < b.1)

theorem pyInsertDesc_pairwise_lex (k : α → ℚ) (x : ℕ × α) (l : List (ℕ × α))
    (hl : l.Pairwise (lexBefore k))
    (hidx : ∀ y ∈ l, x.1 < y.1) :
    (pyInsertDesc (fun p => k p.2) x l).Pairwise (lexBefore k) := by
  induction l with
  | nil => simp [pyInsertDesc]
  | cons y ys ih =>
    rcases List.pairwise_cons.1 hl with ⟨hy, hys⟩
    simp only [pyInsertDesc]
    by_cases h : k y.2 ≤ k x.2
    · rw [if_pos h]
      refine List.pairwise_cons.2 ⟨?_, hl⟩
      intro z hz
      have hzle : k z.2 ≤ k x.2 := by
        rcases List.mem_cons.1 hz with rfl | hz2
        · exact h
        · rcases hy z hz2 with hlt | ⟨heq, _⟩
          · exact le_trans (le_of_lt hlt) h
          · exact le_trans (le_of_eq heq.symm) h
      rcases lt_or_eq_of_le hzle with hlt | heq
      · exact Or.inl hlt
      · exact Or.inr ⟨heq.symm, hidx z hz⟩
    · rw [if_neg h]
      refine List.pairwise_cons.2
        ⟨?_, ih hys (fun z hz => hidx z (List.mem_cons_of_mem y hz))⟩
      intro z hz
      rcases List.mem_cons.1
          ((pyInsertDesc_perm (fun p => k p.2) x ys).mem_iff.1 hz) with
        rfl | hz3
      · exact Or.inl (lt_of_not_le h)
      · exact hy z hz3

theorem pySortDesc_pairwise_lex (k : α → ℚ) (l : List (ℕ × α))
    (hidx : l.Pairwise (fun a b => a.1 < b.1)) :
    (pySortDesc (fun p => k p.2) l).Pairwise (lexBefore k) := by
  induction l with
  | nil => simp [pySortDesc]
  | cons x xs ih =>
    rcases List.pairwise_cons.1 hidx with ⟨hx, hxs⟩
    refine pyInsertDesc_pairwise_lex k x _ (ih hxs) ?_
    intro y hy
    exact hx y ((pySortDesc_perm _ xs).mem_iff.1 hy)

theorem enumFrom_idx_le :
    ∀ (n : ℕ) (l : List α) (p : ℕ × α), p ∈ List.enumFrom n l → n ≤ p.1
  | n, [], p, hp => by simp [List.enumFrom] at hp
  | n, x :: xs, p, hp => by
    simp only [List.enumFrom, List.mem_cons] at hp
    rcases hp with rfl | hp
    · exact le_refl n
    · exact Nat.le_of_succ_le (enumFrom_idx_le (n + 1) xs p hp)

theorem enumFrom_pairwise_lt (n : ℕ) (l : List α) :
    (List.enumFrom n l).Pairwise (fun a b => a.1 < b.1) := by
  induction l generalizing n with
  | nil => simp [List.enumFrom]
  | cons x xs ih =>
    simp only [List.enumFrom]
    refine List.pairwise_cons.2 ⟨?_, ih (n + 1)⟩
    intro p hp
    exact Nat.lt_of_succ_le (enumFrom_idx_le (n + 1) xs p hp)

/-- C9: the explanation is one sentence for the location, one for the
property type, the size sentence only when a (nonzero) house size was
supplied, one for the room counts, and a final key-factors sentence
naming the first three entries of the stable descending sort of the
importance pairs; that sort is a permutation of the original pairs,
pairwise descending in weight, and — shown on the index-tagged list —
breaks weight ties by the features' original order. -/
theorem C9_explanations (pd : PropertyData) (res : PredictionResult) :
    explain_prediction pd res =
      [locationSentence pd, typeSentence pd] ++ sizeSentences pd ++
        [roomsSentence pd,
          "Key factors: " ++ String.intercalate ", "
            (((pySortDesc (fun p => p.2) res.feature_importance).take 3).map
              (fun p => p.1))] ∧
    (sizeSentences pd ≠ [] → ∃ v, pd.house_size = some (some v) ∧ v ≠ 0) ∧
    List.Perm (pySortDesc (fun p => p.2) res.feature_importance)
      res.feature_importance ∧
    (pySortDesc (fun p => p.2) res.feature_importance).Pairwise
      (fun a b => b.2 ≤ a.2) ∧
    (pySortDesc (fun p : ℕ × String × ℚ => p.2.2)
        res.feature_importance.enum).map Prod.snd =
      pySortDesc (fun p => p.2) res.feature_importance ∧
    (pySortDesc (fun p : ℕ × String × ℚ => p.2.2)
        res.feature_importance.enum).Pairwise
      (lexBefore (fun p => p.2)) := by
  refine ⟨rfl, ?_, pySortDesc_perm _ _, pySortDesc_pairwise _ _, ?_, ?_⟩
  · intro hne
    rcases hh : pd.house_size with _ | ov
    · simp [sizeSentences, hh] at hne
    · rcases ov with _ | v
      · simp [sizeSentences, hh] at hne
      · by_cases hv : v = 0
        · simp [sizeSentences, hh, hv] at hne
        · exact ⟨v, rfl, hv⟩
  · exact (pySortDesc_map_snd (fun p => p.2) res.feature_importance.enum).trans
      (by rw [List.enum_map_snd])
  · exact pySortDesc_pairwise_lex (fun p => p.2) res.feature_importance.enum
      (enumFrom_pairwise_lt 0 res.feature_importance)

/-- C9 witness: a request with a supplied nonzero house size does carry
one, discharging the only-if direction at a concrete input. -/
theorem C9_explanations_witness :
    sizeSentences specReq ≠ [] ∧
    ∃ v, specReq.house_size = some (some v) ∧ v ≠ 0 := by
  have hne : sizeSentences specReq ≠ [] := by
    simp [sizeSentences, specReq]
  exact ⟨hne, (C9_explanations specReq
    ⟨0, 0, 0, 0, [("a", 1)]⟩).2.1 hne⟩

end HousePrediction
